import Mathlib

/-!
Verification of the slideshow layout component (`src/Slideshow.js`).

The component is a slide-index state machine: a stored index, a list of
slide elements (each carrying or not carrying the `active` classname), an
optional list of indicator elements, a transition lock with a clearing
timer, and an autoplay timer.  We embed the controller state shallowly:

* machine integers are modelled as `Int` (the index) and `Nat` (times,
  durations, timer ids);
* each slide / indicator is represented by its `active`-classname flag
  (`Bool`), since `setActiveElement` only toggles that classname;
* `setTimeout` / `clearTimeout` are modelled explicitly: the environment
  keeps a list of pending timers (id, absolute fire time, kind), a current
  time, and a fresh-id counter.  Browser timer ids are positive integers,
  so a stored handle is truthy exactly when it is present; handles are
  `Option Nat` and the JS truthiness tests on them become `isSome`;
* throwing code (`destroy`) returns `Except String`.
-/

/-- The two kinds of timers the component schedules: the transition-lock
clearing timer and the autoplay advance timer. -/
inductive TimerKind where
  | transitionClear
  | autoplayAdvance
deriving DecidableEq, Repr

/-- A pending timer in the environment: its id (the value `setTimeout`
returned), its absolute fire time in ms, and which callback it runs. -/
structure Timer where
  id : Nat
  fireAt : Nat
  kind : TimerKind
deriving DecidableEq, Repr

/-- The lifecycle of `this.styleNode`: `absent` before `setStyles` ever ran
(the property is `undefined`), `attached` while the node is in the DOM,
`detached` after `destroy` removed it (its `parentNode` is then `null`). -/
inductive StyleNodeState where
  | absent
  | attached
  | detached
deriving DecidableEq, Repr

/-- `config.autoplay` (`enabled`, `delay`); a missing `delay` is `none` and
falls back to 5000 via `delay || 5000` (so does an explicit 0, which is
falsy in JS). -/
structure AutoplayCfg where
  enabled : Bool
  delay : Option Nat
deriving DecidableEq, Repr

/-- `config.controls`: the three selectors. -/
structure Controls where
  previous : String
  next : String
  indicators : String
deriving DecidableEq, Repr

/-- The slice of the merged config that the state machine reads. -/
structure Config where
  loop : Bool
  /-- `config.transitionDuration`; 0 models the absent/0/falsy case that
  disables the transition lock (`if (this.config.transitionDuration)`). -/
  transitionDuration : Nat
  autoplay : Option AutoplayCfg
  controls : Option Controls
deriving DecidableEq, Repr

/-- The mutable state of a `Slideshow` instance together with the timer
environment. -/
structure SlideshowState where
  /-- `this._index`. -/
  _index : Int
  /-- `this.elements`, each slide reduced to its `active`-classname flag. -/
  elements : List Bool
  /-- `this.indicators` (`null` when there is no indicators selector),
  each indicator reduced to its `active`-classname flag. -/
  indicators : Option (List Bool)
  /-- `this.isTransitioning` (`undefined` initially, modelled `false`). -/
  isTransitioning : Bool
  /-- `this.transitionTimeout`: the stored timer handle. -/
  transitionTimeout : Option Nat
  /-- `this.autoplayTimeout`: the stored timer handle. -/
  autoplayTimeout : Option Nat
  /-- `this.isInteracting`. -/
  isInteracting : Bool
  /-- `this.styleNode` lifecycle. -/
  styleNode : StyleNodeState
  /-- number of entries of `this.eventHandlers`. -/
  eventHandlers : Nat
  /-- pending timers of the environment. -/
  pending : List Timer
  /-- current time of the environment, ms. -/
  now : Nat
  /-- next fresh timer id (browser ids are ≥ 1). -/
  nextId : Nat
deriving DecidableEq, Repr

/-- `clearTimeout(h)`: drops the pending timer with id `h`; on `null` /
`undefined` handles it is a no-op. -/
def clearPending (h : Option Nat) (s : SlideshowState) : SlideshowState :=
  match h with
  | none => s
  | some i => { s with pending := s.pending.filter (fun t => t.id != i) }

/-- `stopAutoplay`: `clearTimeout(this.autoplayTimeout); this.autoplayTimeout = null`. -/
def stopAutoplay (s : SlideshowState) : SlideshowState :=
  { clearPending s.autoplayTimeout s with autoplayTimeout := none }

/-- `this.config.autoplay.delay || 5000`. -/
def effectiveAutoplayDelay (a : AutoplayCfg) : Nat :=
  match a.delay with
  | some d => if d = 0 then 5000 else d
  | none => 5000

/-- `startAutoplay`: a no-op when `!config.autoplay`, `!autoplay.enabled`,
or a handle is already stored; otherwise schedules the advance timer and
stores its handle. -/
def startAutoplay (cfg : Config) (s : SlideshowState) : SlideshowState :=
  match cfg.autoplay with
  | none => s
  | some a =>
      if !a.enabled || s.autoplayTimeout.isSome then s
      else
        { s with autoplayTimeout := some s.nextId,
                 pending := s.pending ++
                   [⟨s.nextId, s.now + effectiveAutoplayDelay a, TimerKind.autoplayAdvance⟩],
                 nextId := s.nextId + 1 }

/-- Flags after `classList.toggle('active', i === index)` over `n` items. -/
def activeFlags (n : Nat) (idx : Int) : List Bool :=
  (List.range n).map (fun (i : Nat) => decide ((i : Int) = idx))

/-- `setActiveElement(index)`: toggles the active classname on every slide
(and every indicator, when `this.indicators` is non-null) according to
`i === index`. -/
def setActiveElement (idx : Int) (s : SlideshowState) : SlideshowState :=
  match s.indicators with
  | none => { s with elements := activeFlags s.elements.length idx }
  | some ind =>
      { s with elements := activeFlags s.elements.length idx,
               indicators := some (activeFlags ind.length idx) }

/-- The transition-delay block of the index setter: when
`config.transitionDuration` is truthy, set `isTransitioning = true` and
store the handle of a freshly scheduled clearing timer.  Note the source
overwrites `this.transitionTimeout` without a `clearTimeout`. -/
def transitionPart (cfg : Config) (s : SlideshowState) : SlideshowState :=
  if cfg.transitionDuration ≠ 0 then
    { s with isTransitioning := true,
             transitionTimeout := some s.nextId,
             pending := s.pending ++
               [⟨s.nextId, s.now + cfg.transitionDuration, TimerKind.transitionClear⟩],
             nextId := s.nextId + 1 }
  else s

/-- The autoplay block of the index setter:
`if (!this.isInteracting) { this.stopAutoplay(); this.startAutoplay(); }`. -/
def autoplayPart (cfg : Config) (s : SlideshowState) : SlideshowState :=
  if !s.isInteracting then startAutoplay cfg (stopAutoplay s) else s

/-- Everything the index setter does after `this._index` was assigned:
`setActiveElement(this._index)`, the transition-delay block, the autoplay
block, in source order. -/
def acceptedEffects (cfg : Config) (s : SlideshowState) : SlideshowState :=
  autoplayPart cfg (transitionPart cfg (setActiveElement s._index s))

/-- `set index(newIndex)` (`src/Slideshow.js:61-90`). -/
def setIndex (cfg : Config) (newIndex : Int) (s : SlideshowState) : SlideshowState :=
  if newIndex > (s.elements.length : Int) - 1 then
    if !cfg.loop then s
    else acceptedEffects cfg { s with _index := 0 }
  else if newIndex < 0 then
    if !cfg.loop then s
    else acceptedEffects cfg { s with _index := (s.elements.length : Int) - 1 }
  else
    acceptedEffects cfg { s with _index := newIndex }

/-- The environment fires a timer: it is removed from the pending list,
time advances to its fire time, and its callback runs — the transition
timer runs `this.isTransitioning = false`, the autoplay timer runs
`this.index++`. -/
def fireTimer (cfg : Config) (t : Timer) (s : SlideshowState) : SlideshowState :=
  let s1 := { s with pending := s.pending.filter (fun u => u.id != t.id), now := t.fireAt }
  match t.kind with
  | TimerKind.transitionClear => { s1 with isTransitioning := false }
  | TimerKind.autoplayAdvance => setIndex cfg (s1._index + 1) s1

/-- `isInView()`: the root is visible when its `top` is below the viewport
height and `top + height` is above 0 (`src/Slideshow.js:337-343`). -/
def isInView (top height innerHeight : Int) : Bool :=
  if top ≥ innerHeight || top + height ≤ 0 then false else true

/-- `handleKeydown(e)` (`src/Slideshow.js:351-367`): ignored while
transitioning or out of view; left arrow (37) decrements, right arrow (39)
increments, any other key is ignored.  The `top`/`height`/`innerHeight`
parameters are the root bounding box and viewport height the handler
queries. -/
def handleKeydown (cfg : Config) (keyCode : Nat) (top height innerHeight : Int)
    (s : SlideshowState) : SlideshowState :=
  if s.isTransitioning || !(isInView top height innerHeight) then s
  else
    let isLeftArrow := keyCode == 37
    let isRightArrow := keyCode == 39
    if !isLeftArrow && !isRightArrow then s
    else if isRightArrow then setIndex cfg (s._index + 1) s
    else setIndex cfg (s._index - 1) s

/-- A DOM element as the click handler sees it: an identity (for the
`target === el` comparison against the indicator nodes) and the set of
selectors it matches. -/
structure Elem where
  eid : Nat
  sels : List String
deriving DecidableEq, Repr

/-- `el.matches(sel)`. -/
def elemMatches (e : Elem) (sel : String) : Bool :=
  e.sels.contains sel

/-- `findAncestor(initialTarget, selectors)` (`src/Slideshow.js:264-280`):
walk the ancestor chain (here the list `target, parent, …` ending at the
root node, identified by `rootId`) until a selector matches or the root is
reached; a match that is the root itself, or reaching the root without a
match, yields `null`. -/
def findAncestor (rootId : Nat) (selectors : List String) : List Elem → Option Elem
  | [] => none
  | e :: rest =>
      if selectors.any (fun sel => elemMatches e sel) then
        if e.eid == rootId then none else some e
      else if e.eid == rootId then none
      else findAncestor rootId selectors rest

/-- `handleControlsClick(e)` (`src/Slideshow.js:292-319`).  The handler is
registered by `setupControls` only when `config.controls` is set, so the
controls object `ctl` is a parameter; `chain` is the ancestor chain of the
click target (ending at the root node) and `indicatorEls` is
`this.indicators` as DOM nodes.  `Object.values(this.config.controls)` is
the selector list in declaration order. -/
def handleControlsClick (cfg : Config) (ctl : Controls) (rootId : Nat)
    (chain : List Elem) (indicatorEls : List Elem) (s : SlideshowState) : SlideshowState :=
  if s.isTransitioning then s
  else
    match findAncestor rootId [ctl.previous, ctl.next, ctl.indicators] chain with
    | none => s
    | some target =>
        if elemMatches target ctl.previous then setIndex cfg (s._index - 1) s
        else if elemMatches target ctl.next then setIndex cfg (s._index + 1) s
        else if elemMatches target ctl.indicators then
          target.eid |> fun _ =>
            (indicatorEls.enum).foldl
              (fun st p => if p.2 = target then setIndex cfg (p.1 : Int) st else st) s
        else s

/-- `destroy()` (`src/Slideshow.js:410-430`): stop autoplay, clear the
transition timeout (the handle itself is not nulled), unbind all tracked
event handlers, then remove the style node.  The last step dereferences
`this.styleNode.parentNode`: it throws a `TypeError` when `setStyles`
never ran (`styleNode` is `undefined`) and when the node was already
removed (`parentNode` is `null`).  The `beforeDestroy`/`afterDestroy`
extension hooks of the layout base are no-ops by default and are modelled
as such. -/
def destroy (s : SlideshowState) : Except String SlideshowState :=
  let s1 := stopAutoplay s
  let s2 := clearPending s1.transitionTimeout s1
  let s3 := { s2 with eventHandlers := 0 }
  match s3.styleNode with
  | StyleNodeState.absent =>
      Except.error "TypeError: cannot read parentNode of undefined"
  | StyleNodeState.detached =>
      Except.error "TypeError: cannot call removeChild on null"
  | StyleNodeState.attached =>
      Except.ok { s3 with styleNode := StyleNodeState.detached }

/-- State right after the constructor: `this._index = 0`,
`this.eventHandlers = []`, nothing laid out yet (no style node, no timers,
an empty element list), clock at 0, first fresh timer id 1. -/
def freshState : SlideshowState :=
  { _index := 0, elements := [], indicators := none, isTransitioning := false,
    transitionTimeout := none, autoplayTimeout := none, isInteracting := false,
    styleNode := StyleNodeState.absent, eventHandlers := 0,
    pending := [], now := 0, nextId := 1 }

/-- A laid-out state with `n` slides, slide 0 active, no indicators, idle
timers. -/
def demoState (n : Nat) : SlideshowState :=
  { _index := 0, elements := activeFlags n 0, indicators := none,
    isTransitioning := false, transitionTimeout := none, autoplayTimeout := none,
    isInteracting := false, styleNode := StyleNodeState.attached, eventHandlers := 4,
    pending := [], now := 0, nextId := 1 }

/-- A looping config with no transition lock and autoplay disabled
(the merged default config). -/
def loopCfg : Config :=
  { loop := true, transitionDuration := 0,
    autoplay := some { enabled := false, delay := none }, controls := none }

/-- A non-looping config, otherwise like `loopCfg`. -/
def noLoopCfg : Config :=
  { loopCfg with loop := false }

/-- A looping config with a 100ms transition lock. -/
def lockCfg : Config :=
  { loopCfg with transitionDuration := 100 }

/-! ### Field lemmas about the state-machine pieces -/

@[simp] theorem activeFlags_length (n : Nat) (idx : Int) :
    (activeFlags n idx).length = n := by
  simp only [activeFlags, List.length_map, List.length_range]

theorem activeFlags_getElem? (n : Nat) (idx : Int) (j : Nat) (hj : j < n) :
    (activeFlags n idx)[j]? = some (decide ((j : Int) = idx)) := by
  rw [activeFlags, List.getElem?_map, List.getElem?_range hj]
  rfl

@[simp] theorem clearPending_index (h : Option Nat) (s : SlideshowState) :
    (clearPending h s)._index = s._index := by
  cases h <;> rfl

@[simp] theorem clearPending_elements (h : Option Nat) (s : SlideshowState) :
    (clearPending h s).elements = s.elements := by
  cases h <;> rfl

@[simp] theorem clearPending_indicators (h : Option Nat) (s : SlideshowState) :
    (clearPending h s).indicators = s.indicators := by
  cases h <;> rfl

@[simp] theorem clearPending_isTransitioning (h : Option Nat) (s : SlideshowState) :
    (clearPending h s).isTransitioning = s.isTransitioning := by
  cases h <;> rfl

@[simp] theorem clearPending_transitionTimeout (h : Option Nat) (s : SlideshowState) :
    (clearPending h s).transitionTimeout = s.transitionTimeout := by
  cases h <;> rfl

@[simp] theorem clearPending_autoplayTimeout (h : Option Nat) (s : SlideshowState) :
    (clearPending h s).autoplayTimeout = s.autoplayTimeout := by
  cases h <;> rfl

@[simp] theorem clearPending_isInteracting (h : Option Nat) (s : SlideshowState) :
    (clearPending h s).isInteracting = s.isInteracting := by
  cases h <;> rfl

@[simp] theorem clearPending_now (h : Option Nat) (s : SlideshowState) :
    (clearPending h s).now = s.now := by
  cases h <;> rfl

@[simp] theorem clearPending_nextId (h : Option Nat) (s : SlideshowState) :
    (clearPending h s).nextId = s.nextId := by
  cases h <;> rfl

@[simp] theorem stopAutoplay_index (s : SlideshowState) :
    (stopAutoplay s)._index = s._index := by
  simp [stopAutoplay]

@[simp] theorem stopAutoplay_elements (s : SlideshowState) :
    (stopAutoplay s).elements = s.elements := by
  simp [stopAutoplay]

@[simp] theorem stopAutoplay_indicators (s : SlideshowState) :
    (stopAutoplay s).indicators = s.indicators := by
  simp [stopAutoplay]

@[simp] theorem stopAutoplay_isTransitioning (s : SlideshowState) :
    (stopAutoplay s).isTransitioning = s.isTransitioning := by
  simp [stopAutoplay]

@[simp] theorem stopAutoplay_transitionTimeout (s : SlideshowState) :
    (stopAutoplay s).transitionTimeout = s.transitionTimeout := by
  simp [stopAutoplay]

@[simp] theorem stopAutoplay_autoplayTimeout (s : SlideshowState) :
    (stopAutoplay s).autoplayTimeout = none := by
  simp [stopAutoplay]

@[simp] theorem stopAutoplay_isInteracting (s : SlideshowState) :
    (stopAutoplay s).isInteracting = s.isInteracting := by
  simp [stopAutoplay]

@[simp] theorem stopAutoplay_now (s : SlideshowState) :
    (stopAutoplay s).now = s.now := by
  simp [stopAutoplay]

@[simp] theorem stopAutoplay_nextId (s : SlideshowState) :
    (stopAutoplay s).nextId = s.nextId := by
  simp [stopAutoplay]

@[simp] theorem startAutoplay_index (cfg : Config) (s : SlideshowState) :
    (startAutoplay cfg s)._index = s._index := by
  cases hca : cfg.autoplay with
  | none => simp [startAutoplay, hca]
  | some a =>
      simp only [startAutoplay, hca]
      split <;> rfl

@[simp] theorem startAutoplay_elements (cfg : Config) (s : SlideshowState) :
    (startAutoplay cfg s).elements = s.elements := by
  cases hca : cfg.autoplay with
  | none => simp [startAutoplay, hca]
  | some a =>
      simp only [startAutoplay, hca]
      split <;> rfl

@[simp] theorem startAutoplay_indicators (cfg : Config) (s : SlideshowState) :
    (startAutoplay cfg s).indicators = s.indicators := by
  cases hca : cfg.autoplay with
  | none => simp [startAutoplay, hca]
  | some a =>
      simp only [startAutoplay, hca]
      split <;> rfl

@[simp] theorem startAutoplay_isTransitioning (cfg : Config) (s : SlideshowState) :
    (startAutoplay cfg s).isTransitioning = s.isTransitioning := by
  cases hca : cfg.autoplay with
  | none => simp [startAutoplay, hca]
  | some a =>
      simp only [startAutoplay, hca]
      split <;> rfl

@[simp] theorem startAutoplay_transitionTimeout (cfg : Config) (s : SlideshowState) :
    (startAutoplay cfg s).transitionTimeout = s.transitionTimeout := by
  cases hca : cfg.autoplay with
  | none => simp [startAutoplay, hca]
  | some a =>
      simp only [startAutoplay, hca]
      split <;> rfl

@[simp] theorem startAutoplay_isInteracting (cfg : Config) (s : SlideshowState) :
    (startAutoplay cfg s).isInteracting = s.isInteracting := by
  cases hca : cfg.autoplay with
  | none => simp [startAutoplay, hca]
  | some a =>
      simp only [startAutoplay, hca]
      split <;> rfl

@[simp] theorem startAutoplay_now (cfg : Config) (s : SlideshowState) :
    (startAutoplay cfg s).now = s.now := by
  cases hca : cfg.autoplay with
  | none => simp [startAutoplay, hca]
  | some a =>
      simp only [startAutoplay, hca]
      split <;> rfl

theorem startAutoplay_pending_extends (cfg : Config) (s : SlideshowState) :
    ∃ rest, (startAutoplay cfg s).pending = s.pending ++ rest := by
  cases hca : cfg.autoplay with
  | none => exact ⟨[], by simp [startAutoplay, hca]⟩
  | some a =>
      simp only [startAutoplay, hca]
      split
      · exact ⟨[], by simp⟩
      · exact ⟨_, rfl⟩

theorem startAutoplay_pending_ids (cfg : Config) (s : SlideshowState) (u : Timer)
    (hu : u ∈ (startAutoplay cfg s).pending) : u ∈ s.pending ∨ u.id = s.nextId := by
  cases hca : cfg.autoplay with
  | none =>
      simp only [startAutoplay, hca] at hu
      exact Or.inl hu
  | some a =>
      simp only [startAutoplay, hca] at hu
      by_cases hcond : (!a.enabled || s.autoplayTimeout.isSome) = true
      · rw [if_pos hcond] at hu; exact Or.inl hu
      · rw [if_neg hcond] at hu
        simp only [List.mem_append, List.mem_singleton] at hu
        rcases hu with hu | hu
        · exact Or.inl hu
        · subst hu; exact Or.inr rfl

@[simp] theorem setActiveElement_index (idx : Int) (s : SlideshowState) :
    (setActiveElement idx s)._index = s._index := by
  unfold setActiveElement
  cases s.indicators <;> rfl

@[simp] theorem setActiveElement_elements (idx : Int) (s : SlideshowState) :
    (setActiveElement idx s).elements = activeFlags s.elements.length idx := by
  unfold setActiveElement
  cases s.indicators <;> rfl

theorem setActiveElement_indicators (idx : Int) (s : SlideshowState) :
    (setActiveElement idx s).indicators =
      s.indicators.map (fun l => activeFlags l.length idx) := by
  unfold setActiveElement
  cases s.indicators <;> rfl

@[simp] theorem setActiveElement_isTransitioning (idx : Int) (s : SlideshowState) :
    (setActiveElement idx s).isTransitioning = s.isTransitioning := by
  unfold setActiveElement
  cases s.indicators <;> rfl

@[simp] theorem setActiveElement_transitionTimeout (idx : Int) (s : SlideshowState) :
    (setActiveElement idx s).transitionTimeout = s.transitionTimeout := by
  unfold setActiveElement
  cases s.indicators <;> rfl

@[simp] theorem setActiveElement_autoplayTimeout (idx : Int) (s : SlideshowState) :
    (setActiveElement idx s).autoplayTimeout = s.autoplayTimeout := by
  unfold setActiveElement
  cases s.indicators <;> rfl

@[simp] theorem setActiveElement_isInteracting (idx : Int) (s : SlideshowState) :
    (setActiveElement idx s).isInteracting = s.isInteracting := by
  unfold setActiveElement
  cases s.indicators <;> rfl

@[simp] theorem setActiveElement_pending (idx : Int) (s : SlideshowState) :
    (setActiveElement idx s).pending = s.pending := by
  unfold setActiveElement
  cases s.indicators <;> rfl

@[simp] theorem setActiveElement_now (idx : Int) (s : SlideshowState) :
    (setActiveElement idx s).now = s.now := by
  unfold setActiveElement
  cases s.indicators <;> rfl

@[simp] theorem setActiveElement_nextId (idx : Int) (s : SlideshowState) :
    (setActiveElement idx s).nextId = s.nextId := by
  unfold setActiveElement
  cases s.indicators <;> rfl

@[simp] theorem transitionPart_index (cfg : Config) (s : SlideshowState) :
    (transitionPart cfg s)._index = s._index := by
  unfold transitionPart; split <;> rfl

@[simp] theorem transitionPart_elements (cfg : Config) (s : SlideshowState) :
    (transitionPart cfg s).elements = s.elements := by
  unfold transitionPart; split <;> rfl

@[simp] theorem transitionPart_indicators (cfg : Config) (s : SlideshowState) :
    (transitionPart cfg s).indicators = s.indicators := by
  unfold transitionPart; split <;> rfl

@[simp] theorem transitionPart_autoplayTimeout (cfg : Config) (s : SlideshowState) :
    (transitionPart cfg s).autoplayTimeout = s.autoplayTimeout := by
  unfold transitionPart; split <;> rfl

@[simp] theorem transitionPart_isInteracting (cfg : Config) (s : SlideshowState) :
    (transitionPart cfg s).isInteracting = s.isInteracting := by
  unfold transitionPart; split <;> rfl

@[simp] theorem transitionPart_now (cfg : Config) (s : SlideshowState) :
    (transitionPart cfg s).now = s.now := by
  unfold transitionPart; split <;> rfl

theorem transitionPart_of_ne (cfg : Config) (s : SlideshowState)
    (hd : cfg.transitionDuration ≠ 0) :
    transitionPart cfg s =
      { s with isTransitioning := true,
               transitionTimeout := some s.nextId,
               pending := s.pending ++
                 [⟨s.nextId, s.now + cfg.transitionDuration, TimerKind.transitionClear⟩],
               nextId := s.nextId + 1 } := by
  unfold transitionPart
  rw [if_pos hd]

@[simp] theorem autoplayPart_index (cfg : Config) (s : SlideshowState) :
    (autoplayPart cfg s)._index = s._index := by
  unfold autoplayPart; split <;> simp

@[simp] theorem autoplayPart_elements (cfg : Config) (s : SlideshowState) :
    (autoplayPart cfg s).elements = s.elements := by
  unfold autoplayPart; split <;> simp

@[simp] theorem autoplayPart_indicators (cfg : Config) (s : SlideshowState) :
    (autoplayPart cfg s).indicators = s.indicators := by
  unfold autoplayPart; split <;> simp

@[simp] theorem autoplayPart_isTransitioning (cfg : Config) (s : SlideshowState) :
    (autoplayPart cfg s).isTransitioning = s.isTransitioning := by
  unfold autoplayPart; split <;> simp

@[simp] theorem autoplayPart_transitionTimeout (cfg : Config) (s : SlideshowState) :
    (autoplayPart cfg s).transitionTimeout = s.transitionTimeout := by
  unfold autoplayPart; split <;> simp

@[simp] theorem autoplayPart_now (cfg : Config) (s : SlideshowState) :
    (autoplayPart cfg s).now = s.now := by
  unfold autoplayPart; split <;> simp

@[simp] theorem acceptedEffects_index (cfg : Config) (s : SlideshowState) :
    (acceptedEffects cfg s)._index = s._index := by
  unfold acceptedEffects; simp

@[simp] theorem acceptedEffects_elements (cfg : Config) (s : SlideshowState) :
    (acceptedEffects cfg s).elements = activeFlags s.elements.length s._index := by
  unfold acceptedEffects; simp

theorem acceptedEffects_indicators (cfg : Config) (s : SlideshowState) :
    (acceptedEffects cfg s).indicators =
      s.indicators.map (fun l => activeFlags l.length s._index) := by
  unfold acceptedEffects
  simp [setActiveElement_indicators]

@[simp] theorem acceptedEffects_now (cfg : Config) (s : SlideshowState) :
    (acceptedEffects cfg s).now = s.now := by
  unfold acceptedEffects; simp

@[simp] theorem activeFlags_zero (idx : Int) : activeFlags 0 idx = [] := rfl

/-- An in-range request takes the final `else` branch of the setter. -/
theorem setIndex_in_range (cfg : Config) (s : SlideshowState) (R : Int)
    (h0 : 0 ≤ R) (h1 : R ≤ (s.elements.length : Int) - 1) :
    setIndex cfg R s = acceptedEffects cfg { s with _index := R } := by
  unfold setIndex
  rw [if_neg (by omega), if_neg (by omega)]

/-- A too-high request takes the first branch of the setter. -/
theorem setIndex_high (cfg : Config) (s : SlideshowState) (R : Int)
    (h : (s.elements.length : Int) - 1 < R) :
    setIndex cfg R s =
      if !cfg.loop then s else acceptedEffects cfg { s with _index := 0 } := by
  unfold setIndex
  rw [if_pos h]

/-- A negative request takes the middle branch of the setter (a negative
`R` never exceeds `N - 1`, because `N - 1 ≥ -1`). -/
theorem setIndex_low (cfg : Config) (s : SlideshowState) (R : Int)
    (h : R < 0) :
    setIndex cfg R s =
      if !cfg.loop then s
      else acceptedEffects cfg { s with _index := (s.elements.length : Int) - 1 } := by
  unfold setIndex
  rw [if_neg (by omega), if_pos h]

/-- Arithmetic helper: adding the modulus and reducing again is the plain
euclidean remainder. -/
theorem emod_add_self_emod (R N : Int) : ((R % N) + N) % N = R % N := by
  have h1 : (R % N) + N = R % N + N * 1 := by ring
  rw [h1, Int.add_mul_emod_self_left, Int.emod_emod_of_dvd R (dvd_refl N)]

/-- Arithmetic helper: `(-1) % N = N - 1` for positive `N` (euclidean
remainder). -/
theorem neg_one_emod (N : Int) (h : 1 ≤ N) : (-1 : Int) % N = N - 1 := by
  have h1 : (-1 : Int) = (N - 1) + N * (-1) := by ring
  rw [h1, Int.add_mul_emod_self_left]
  exact Int.emod_eq_of_lt (by omega) (by omega)

/-- A 3-slide non-looping scenario state: slide 2 active, index 2. -/
def demoState3at2 : SlideshowState :=
  { demoState 3 with _index := 2, elements := activeFlags 3 2 }

/-- C1: for N ≥ 1 slides, setting a requested index R computes the next
index as: R above N-1 gives 0 under loop and is rejected otherwise; R
below 0 gives N-1 under loop and is rejected otherwise; an in-range R is
taken as is.  Scenario: N=5, loop, request -1: resulting index 4, slide 4
active, slide 0 inactive. -/
theorem C1_set_index_contract (cfg : Config) (s : SlideshowState) (R : Int)
    (hN : 1 ≤ s.elements.length) :
    (R > (s.elements.length : Int) - 1 →
      (cfg.loop = true → (setIndex cfg R s)._index = 0) ∧
      (cfg.loop = false → setIndex cfg R s = s)) ∧
    (R < 0 →
      (cfg.loop = true → (setIndex cfg R s)._index = (s.elements.length : Int) - 1) ∧
      (cfg.loop = false → setIndex cfg R s = s)) ∧
    (0 ≤ R → R ≤ (s.elements.length : Int) - 1 → (setIndex cfg R s)._index = R) ∧
    ((setIndex loopCfg (-1) (demoState 5))._index = 4 ∧
     (setIndex loopCfg (-1) (demoState 5)).elements[4]? = some true ∧
     (setIndex loopCfg (-1) (demoState 5)).elements[0]? = some false) := by
  refine ⟨?_, ?_, ?_, by decide, by decide, by decide⟩
  · intro h
    rw [setIndex_high cfg s R h]
    constructor
    · intro hl; rw [hl]; simp
    · intro hl; rw [hl]; simp
  · intro h
    rw [setIndex_low cfg s R h]
    constructor
    · intro hl; rw [hl]; simp
    · intro hl; rw [hl]; simp
  · intro h0 h1
    rw [setIndex_in_range cfg s R h0 h1]
    simp

/-- C1 witness: the contract instantiated at N=1, R=5, the default looping
config. -/
theorem C1_set_index_contract_witness :
    1 ≤ (demoState 1).elements.length ∧
    (setIndex loopCfg 5 (demoState 1))._index = 0 :=
  ⟨by decide, ((C1_set_index_contract loopCfg (demoState 1) 5 (by decide)).1
      (by decide)).1 rfl⟩

/-- C2 counterexample: with N=5, loop=true and R = N+2 = 7 the code yields
index 0, while the wrap-around law `((R mod N) + N) mod N` demands 2. -/
theorem C2_counterexample :
    (setIndex loopCfg 7 (demoState 5))._index = 0 ∧
    ((7 % (5 : Int)) + 5) % 5 = 2 ∧
    (setIndex loopCfg 7 (demoState 5))._index ≠ ((7 % (5 : Int)) + 5) % 5 := by
  refine ⟨by decide, by decide, by decide⟩

/-- C2 amended: with loop=true the wrap-around law
`((R mod N) + N) mod N` holds only for requests at most one step out of
range (`-1 ≤ R ≤ N`); any request above N-1 yields 0 and any request
below 0 yields N-1 (the code clamps to the boundary, it does not wrap
modularly). -/
theorem C2_amended_wrap (cfg : Config) (s : SlideshowState) (R : Int)
    (hN : 1 ≤ s.elements.length) (hl : cfg.loop = true) :
    (-1 ≤ R → R ≤ (s.elements.length : Int) →
      (setIndex cfg R s)._index =
        ((R % (s.elements.length : Int)) + (s.elements.length : Int)) %
          (s.elements.length : Int)) ∧
    ((s.elements.length : Int) - 1 < R → (setIndex cfg R s)._index = 0) ∧
    (R < 0 → (setIndex cfg R s)._index = (s.elements.length : Int) - 1) := by
  have hN' : (1 : Int) ≤ (s.elements.length : Int) := by exact_mod_cast hN
  refine ⟨?_, ?_, ?_⟩
  · intro h1 h2
    rw [emod_add_self_emod]
    by_cases hneg : R < 0
    · have hR : R = -1 := by omega
      subst hR
      rw [setIndex_low cfg s (-1) (by omega), hl]
      simp [neg_one_emod _ hN']
    · by_cases hin : R ≤ (s.elements.length : Int) - 1
      · rw [setIndex_in_range cfg s R (by omega) hin]
        have hmod : R % (s.elements.length : Int) = R :=
          Int.emod_eq_of_lt (by omega) (by omega)
        simp [hmod]
      · have hR : R = (s.elements.length : Int) := by omega
        subst hR
        rw [setIndex_high cfg s _ (by omega), hl]
        simp [Int.emod_self]
  · intro h
    rw [setIndex_high cfg s R h, hl]
    simp
  · intro h
    rw [setIndex_low cfg s R h, hl]
    simp

/-- C2 amended witness: N=2, loop, R=-1 wraps to 1 = ((-1 mod 2) + 2) mod 2. -/
theorem C2_amended_wrap_witness :
    1 ≤ (demoState 2).elements.length ∧ loopCfg.loop = true ∧
    (setIndex loopCfg (-1) (demoState 2))._index =
      (((-1) % ((demoState 2).elements.length : Int)) +
        ((demoState 2).elements.length : Int)) %
        ((demoState 2).elements.length : Int) :=
  ⟨by decide, rfl,
    (C2_amended_wrap loopCfg (demoState 2) (-1) (by decide) rfl).1
      (by decide) (by decide)⟩

/-- C3: with loop=false and N ≥ 1 slides, any out-of-range request is a
complete no-op — the resulting state equals the input state, so the index,
all active markers and both timers are untouched.  Scenario: N=3, index 2,
request 3, index stays 2. -/
theorem C3_reject_noop (cfg : Config) (s : SlideshowState) (R : Int)
    (hN : 1 ≤ s.elements.length) (hl : cfg.loop = false)
    (hout : R < 0 ∨ (s.elements.length : Int) - 1 < R) :
    setIndex cfg R s = s ∧
    setIndex noLoopCfg 3 demoState3at2 = demoState3at2 ∧
    demoState3at2._index = 2 := by
  refine ⟨?_, by decide, by decide⟩
  rcases hout with h | h
  · rw [setIndex_low cfg s R h, hl]; simp
  · rw [setIndex_high cfg s R h, hl]; simp

/-- C3 witness: N=3, loop=false, request 3 leaves the state untouched. -/
theorem C3_reject_noop_witness :
    1 ≤ demoState3at2.elements.length ∧ noLoopCfg.loop = false ∧
    setIndex noLoopCfg 3 demoState3at2 = demoState3at2 :=
  ⟨by decide, rfl,
    (C3_reject_noop noLoopCfg demoState3at2 3 (by decide) rfl
      (Or.inr (by decide))).1⟩

/-- C6 counterexample: with N=0, loop=true (the default) and a transition
duration, assigning index -1 is not a no-op: the stored index becomes -1
and a transition-lock timer is scheduled. -/
theorem C6_counterexample :
    (demoState 0)._index = 0 ∧
    (demoState 0).transitionTimeout = none ∧
    (demoState 0).pending = [] ∧
    (setIndex lockCfg (-1) (demoState 0))._index = -1 ∧
    (setIndex lockCfg (-1) (demoState 0)).transitionTimeout = some 1 ∧
    (setIndex lockCfg (-1) (demoState 0)).pending ≠ [] := by
  refine ⟨by decide, by decide, by decide, by decide, by decide, by decide⟩

/-- C6 amended: with an empty slide set, an index assignment is a complete
no-op only when loop=false; with loop=true the assignment is accepted — no
slide can be marked active (there are none), but the stored index is set
to 0 for R ≥ 0 and to -1 for R < 0, and the usual timer side effects run. -/
theorem C6_amended_empty (cfg : Config) (R : Int) (s : SlideshowState)
    (he : s.elements = []) :
    (cfg.loop = false → setIndex cfg R s = s) ∧
    (cfg.loop = true →
      (setIndex cfg R s).elements = [] ∧
      (0 ≤ R → (setIndex cfg R s)._index = 0) ∧
      (R < 0 → (setIndex cfg R s)._index = -1)) := by
  have hlen : s.elements.length = 0 := by rw [he]; rfl
  constructor
  · intro hl
    by_cases hneg : R < 0
    · rw [setIndex_low cfg s R hneg, hl]; simp
    · rw [setIndex_high cfg s R (by omega), hl]; simp
  · intro hl
    refine ⟨?_, ?_, ?_⟩
    · by_cases hneg : R < 0
      · rw [setIndex_low cfg s R hneg, hl]; simp [hlen]
      · rw [setIndex_high cfg s R (by omega), hl]; simp [hlen]
    · intro h0
      rw [setIndex_high cfg s R (by omega), hl]; simp
    · intro hneg
      rw [setIndex_low cfg s R hneg, hl]; simp [hlen]

/-- C6 amended witness: the empty slide set with loop=false rejects
request 0, and with loop=true request -1 stores index -1. -/
theorem C6_amended_empty_witness :
    (demoState 0).elements = [] ∧
    setIndex noLoopCfg 0 (demoState 0) = demoState 0 ∧
    (setIndex lockCfg (-5) (demoState 0))._index = -1 :=
  ⟨by decide,
    (C6_amended_empty noLoopCfg 0 (demoState 0) (by decide)).1 rfl,
    ((C6_amended_empty lockCfg (-5) (demoState 0) (by decide)).2 rfl).2.2
      (by decide)⟩

/-- With loop enabled, a too-high request stores index 0 and runs the
accepted-transition effects. -/
theorem setIndex_high_loop (cfg : Config) (s : SlideshowState) (R : Int)
    (hl : cfg.loop = true) (h : (s.elements.length : Int) - 1 < R) :
    setIndex cfg R s = acceptedEffects cfg { s with _index := 0 } := by
  rw [setIndex_high cfg s R h, hl]
  simp

/-- With loop enabled, a negative request stores index N-1 and runs the
accepted-transition effects. -/
theorem setIndex_low_loop (cfg : Config) (s : SlideshowState) (R : Int)
    (hl : cfg.loop = true) (h : R < 0) :
    setIndex cfg R s =
      acceptedEffects cfg { s with _index := (s.elements.length : Int) - 1 } := by
  rw [setIndex_low cfg s R h, hl]
  simp

/-- Every accepted request (loop enabled, or R in range) stores some
in-range index value and runs the accepted-transition effects. -/
theorem setIndex_accepted_form (cfg : Config) (s : SlideshowState) (R : Int)
    (hN : 1 ≤ s.elements.length)
    (hacc : cfg.loop = true ∨ (0 ≤ R ∧ R ≤ (s.elements.length : Int) - 1)) :
    ∃ v : Int, 0 ≤ v ∧ v ≤ (s.elements.length : Int) - 1 ∧
      setIndex cfg R s = acceptedEffects cfg { s with _index := v } := by
  by_cases hin : 0 ≤ R ∧ R ≤ (s.elements.length : Int) - 1
  · exact ⟨R, hin.1, hin.2, setIndex_in_range cfg s R hin.1 hin.2⟩
  · have hl : cfg.loop = true := by
      rcases hacc with hl | hr
      · exact hl
      · exact absurd hr hin
    by_cases hneg : R < 0
    · exact ⟨(s.elements.length : Int) - 1, by omega, by omega,
        setIndex_low_loop cfg s R hl hneg⟩
    · have hhigh : (s.elements.length : Int) - 1 < R := by omega
      exact ⟨0, le_refl 0, by omega, setIndex_high_loop cfg s R hl hhigh⟩

/-- The active-marker law of the accepted effects: slide `j` carries the
marker exactly when `j` is the stored index. -/
theorem acceptedEffects_active_law (cfg : Config) (s : SlideshowState) (j : Nat)
    (hj : j < s.elements.length) :
    ((acceptedEffects cfg s).elements[j]? = some true ↔ (j : Int) = s._index) := by
  rw [acceptedEffects_elements, activeFlags_getElem? _ _ j hj]
  constructor
  · intro h
    exact of_decide_eq_true (Option.some.inj h)
  · intro h
    rw [h]
    simp

/-- C7: for N ≥ 1 slides, after any accepted transition the resulting
index is in range, exactly the slide at that index carries the active
marker, and when an indicator list of length N is present, exactly the
indicator at the same position carries the marker. -/
theorem C7_active_marker_exclusive (cfg : Config) (s : SlideshowState) (R : Int)
    (hN : 1 ≤ s.elements.length)
    (hacc : cfg.loop = true ∨ (0 ≤ R ∧ R ≤ (s.elements.length : Int) - 1)) :
    (setIndex cfg R s).elements.length = s.elements.length ∧
    0 ≤ (setIndex cfg R s)._index ∧
    (setIndex cfg R s)._index ≤ (s.elements.length : Int) - 1 ∧
    (∀ j : Nat, j < s.elements.length →
      ((setIndex cfg R s).elements[j]? = some true ↔
        (j : Int) = (setIndex cfg R s)._index)) ∧
    (∀ ind : List Bool, s.indicators = some ind → ind.length = s.elements.length →
      ∃ ind2 : List Bool, (setIndex cfg R s).indicators = some ind2 ∧
        ind2.length = s.elements.length ∧
        ∀ j : Nat, j < s.elements.length →
          (ind2[j]? = some true ↔ (j : Int) = (setIndex cfg R s)._index)) := by
  obtain ⟨v, hv0, hv1, heq⟩ := setIndex_accepted_form cfg s R hN hacc
  rw [heq]
  refine ⟨by simp, by simp [hv0], by simp [hv1], ?_, ?_⟩
  · intro j hj
    simpa using acceptedEffects_active_law cfg { s with _index := v } j hj
  · intro ind hind hlen
    refine ⟨activeFlags ind.length v, ?_, by simp [hlen], ?_⟩
    · rw [acceptedEffects_indicators]
      simp [hind]
    · intro j hj
      rw [activeFlags_getElem? _ _ j (by omega)]
      simp only [acceptedEffects_index]
      constructor
      · intro h
        exact of_decide_eq_true (Option.some.inj h)
      · intro h
        simp [h]

/-- C7 witness: the contract at N=2 with indicators, loop, request 5
(accepted via loop, lands on 0). -/
theorem C7_active_marker_exclusive_witness :
    (1 ≤ (({ demoState 2 with indicators := some [false, true] }) :
        SlideshowState).elements.length) ∧
    (0 : Int) ≤
      (setIndex loopCfg 5 { demoState 2 with indicators := some [false, true] })._index :=
  ⟨by decide,
    (C7_active_marker_exclusive loopCfg
      { demoState 2 with indicators := some [false, true] } 5
      (by decide) (Or.inl rfl)).2.1⟩

/-- `startAutoplay` is a no-op when the config has no autoplay block. -/
theorem startAutoplay_noop_none (cfg : Config) (s : SlideshowState)
    (h : cfg.autoplay = none) : startAutoplay cfg s = s := by
  simp [startAutoplay, h]

/-- `startAutoplay` is a no-op when autoplay is disabled. -/
theorem startAutoplay_noop_disabled (cfg : Config) (s : SlideshowState) (a : AutoplayCfg)
    (h : cfg.autoplay = some a) (he : a.enabled = false) : startAutoplay cfg s = s := by
  simp [startAutoplay, h, he]

/-- `startAutoplay` is a no-op when an autoplay handle is already stored. -/
theorem startAutoplay_noop_scheduled (cfg : Config) (s : SlideshowState)
    (h : s.autoplayTimeout.isSome = true) : startAutoplay cfg s = s := by
  cases hca : cfg.autoplay with
  | none => simp [startAutoplay, hca]
  | some a => simp [startAutoplay, hca, h]

/-- When autoplay is enabled and no handle is stored, `startAutoplay`
schedules the advance timer. -/
theorem startAutoplay_schedules (cfg : Config) (s : SlideshowState) (a : AutoplayCfg)
    (h : cfg.autoplay = some a) (he : a.enabled = true) (hn : s.autoplayTimeout = none) :
    startAutoplay cfg s =
      { s with autoplayTimeout := some s.nextId,
               pending := s.pending ++
                 [⟨s.nextId, s.now + effectiveAutoplayDelay a, TimerKind.autoplayAdvance⟩],
               nextId := s.nextId + 1 } := by
  simp [startAutoplay, h, he, hn]

@[simp] theorem clearPending_none (s : SlideshowState) : clearPending none s = s := rfl

/-- Overwriting `autoplayTimeout` with the value it already holds changes
nothing. -/
theorem set_autoplayTimeout_none_of_none (s : SlideshowState)
    (h : s.autoplayTimeout = none) : { s with autoplayTimeout := none } = s := by
  cases s
  simp_all

theorem startAutoplay_idem (cfg : Config) (s : SlideshowState) :
    startAutoplay cfg (startAutoplay cfg s) = startAutoplay cfg s := by
  cases hca : cfg.autoplay with
  | none => rw [startAutoplay_noop_none cfg s hca, startAutoplay_noop_none cfg s hca]
  | some a =>
      cases he : a.enabled with
      | false =>
          rw [startAutoplay_noop_disabled cfg s a hca he,
            startAutoplay_noop_disabled cfg s a hca he]
      | true =>
          cases hn : s.autoplayTimeout with
          | some v =>
              rw [startAutoplay_noop_scheduled cfg s (by rw [hn]; rfl)]
              exact startAutoplay_noop_scheduled cfg s (by rw [hn]; rfl)
          | none =>
              rw [startAutoplay_schedules cfg s a hca he hn]
              exact startAutoplay_noop_scheduled cfg _ rfl

theorem stopAutoplay_idem (s : SlideshowState) :
    stopAutoplay (stopAutoplay s) = stopAutoplay s := by
  conv_lhs => rw [stopAutoplay]
  rw [stopAutoplay_autoplayTimeout, clearPending_none]
  exact set_autoplayTimeout_none_of_none _ (stopAutoplay_autoplayTimeout s)

/-- C8: `startAutoplay` twice equals `startAutoplay` once, `stopAutoplay`
twice equals `stopAutoplay` once, and `startAutoplay` is a no-op whenever
autoplay is absent or disabled or a timer is already scheduled. -/
theorem C8_autoplay_idempotent (cfg : Config) (s : SlideshowState) :
    startAutoplay cfg (startAutoplay cfg s) = startAutoplay cfg s ∧
    stopAutoplay (stopAutoplay s) = stopAutoplay s ∧
    (cfg.autoplay = none → startAutoplay cfg s = s) ∧
    (∀ a : AutoplayCfg, cfg.autoplay = some a → a.enabled = false →
      startAutoplay cfg s = s) ∧
    (s.autoplayTimeout.isSome = true → startAutoplay cfg s = s) :=
  ⟨startAutoplay_idem cfg s, stopAutoplay_idem s,
    fun h => startAutoplay_noop_none cfg s h,
    fun a h he => startAutoplay_noop_disabled cfg s a h he,
    fun h => startAutoplay_noop_scheduled cfg s h⟩

/-- C8 witness: autoplay disabled in the default config, so one start call
is already a no-op. -/
theorem C8_autoplay_idempotent_witness :
    loopCfg.autoplay = some ⟨false, none⟩ ∧
    startAutoplay loopCfg (demoState 3) = demoState 3 :=
  ⟨rfl, (C8_autoplay_idempotent loopCfg (demoState 3)).2.2.2.1 ⟨false, none⟩ rfl rfl⟩

/-- The in-view check succeeds exactly under the spec bounds. -/
theorem isInView_eq_true (top height innerHeight : Int)
    (h1 : top < innerHeight) (h2 : 0 < top + height) :
    isInView top height innerHeight = true := by
  unfold isInView
  split
  · rename_i hcond
    simp only [Bool.or_eq_true, decide_eq_true_eq] at hcond
    rcases hcond with hc | hc <;> omega
  · rfl

/-- C9: while the transition lock is held, both the controls click handler
and the keydown handler leave the state untouched; with the lock clear and
the root in view, a right-arrow keydown performs `index++`, a left-arrow
keydown performs `index--` (each through the setter with its loop/reject
rules), and any other key leaves the state untouched. -/
theorem C9_lock_and_arrow_keys (cfg : Config) (ctl : Controls) (rootId : Nat)
    (chain indicatorEls : List Elem) (k : Nat) (top height innerHeight : Int)
    (s : SlideshowState) :
    (s.isTransitioning = true →
      handleControlsClick cfg ctl rootId chain indicatorEls s = s ∧
      handleKeydown cfg k top height innerHeight s = s) ∧
    (s.isTransitioning = false → top < innerHeight → 0 < top + height →
      handleKeydown cfg 39 top height innerHeight s = setIndex cfg (s._index + 1) s ∧
      handleKeydown cfg 37 top height innerHeight s = setIndex cfg (s._index - 1) s ∧
      (k ≠ 37 → k ≠ 39 → handleKeydown cfg k top height innerHeight s = s)) := by
  constructor
  · intro ht
    constructor
    · unfold handleControlsClick
      rw [if_pos ht]
    · unfold handleKeydown
      rw [if_pos (by rw [ht]; rfl)]
  · intro hf h1 h2
    have hv : isInView top height innerHeight = true := isInView_eq_true _ _ _ h1 h2
    have hcond : ∀ k2 : Nat, ¬((s.isTransitioning || !(isInView top height innerHeight)) = true) := by
      intro k2
      rw [hf, hv]
      simp
    refine ⟨?_, ?_, ?_⟩
    · unfold handleKeydown
      rw [if_neg (hcond 39)]
      rfl
    · unfold handleKeydown
      rw [if_neg (hcond 37)]
      rfl
    · intro hk37 hk39
      have b37 : (k == 37) = false := by simp [hk37]
      have b39 : (k == 39) = false := by simp [hk39]
      unfold handleKeydown
      rw [if_neg (hcond k)]
      simp [b37, b39]

/-- C9 witness: at a concrete unlocked, in-view state a right-arrow
keydown advances the index through the setter. -/
theorem C9_lock_and_arrow_keys_witness :
    (demoState 3).isTransitioning = false ∧
    handleKeydown loopCfg 39 10 50 800 (demoState 3) =
      setIndex loopCfg ((demoState 3)._index + 1) (demoState 3) :=
  ⟨rfl,
    ((C9_lock_and_arrow_keys loopCfg ⟨".p", ".n", ".i"⟩ 0 [] [] 39 10 50 800
      (demoState 3)).2 rfl (by decide) (by decide)).1⟩

/-- A 2-slide state mid-transition: the first index change at time 0
scheduled clear timer 1 for time 100, and the clock has advanced to 50. -/
def stackedState : SlideshowState :=
  { setIndex lockCfg 1 (demoState 2) with now := 50 }

/-- C4 counterexample: issuing a second accepted index change at time 50,
while clear timer 1 (due at 100) is still pending, leaves BOTH clear
timers pending (they stack), and when timer 1 fires at time 100 it clears
the lock although the second transition only began at 50 and its
`transitionDuration` ends at 150. -/
theorem C4_counterexample :
    stackedState.pending = [Timer.mk 1 100 TimerKind.transitionClear] ∧
    (setIndex lockCfg 0 stackedState).pending =
      [Timer.mk 1 100 TimerKind.transitionClear,
       Timer.mk 2 150 TimerKind.transitionClear] ∧
    (setIndex lockCfg 0 stackedState).isTransitioning = true ∧
    (fireTimer lockCfg (Timer.mk 1 100 TimerKind.transitionClear)
      (setIndex lockCfg 0 stackedState)).isTransitioning = false ∧
    100 < 50 + lockCfg.transitionDuration := by
  refine ⟨by decide, by decide, by decide, by decide, by decide⟩

theorem transitionPart_nextId_le (cfg : Config) (s : SlideshowState) :
    s.nextId ≤ (transitionPart cfg s).nextId := by
  unfold transitionPart
  split <;> simp

theorem transitionPart_pending_extends (cfg : Config) (s : SlideshowState) :
    ∃ rest, (transitionPart cfg s).pending = s.pending ++ rest := by
  unfold transitionPart
  split
  · exact ⟨_, rfl⟩
  · exact ⟨[], by simp⟩

theorem clearPending_mem (h : Option Nat) (s : SlideshowState) (u : Timer)
    (hu : u ∈ s.pending) (hid : ∀ i, h = some i → u.id ≠ i) :
    u ∈ (clearPending h s).pending := by
  cases h with
  | none => exact hu
  | some i =>
      simp only [clearPending]
      apply List.mem_filter.mpr
      refine ⟨hu, ?_⟩
      have hne := hid i rfl
      simp [hne]

theorem stopAutoplay_pending_mem (s : SlideshowState) (u : Timer)
    (hu : u ∈ s.pending) (hid : ∀ i, s.autoplayTimeout = some i → u.id ≠ i) :
    u ∈ (stopAutoplay s).pending := by
  unfold stopAutoplay
  exact clearPending_mem s.autoplayTimeout s u hu hid

/-- A timer survives the autoplay block whenever its id differs from the
stored autoplay handle. -/
theorem autoplayPart_pending_mem (cfg : Config) (s : SlideshowState) (u : Timer)
    (hu : u ∈ s.pending) (hid : ∀ i, s.autoplayTimeout = some i → u.id ≠ i) :
    u ∈ (autoplayPart cfg s).pending := by
  unfold autoplayPart
  split
  · obtain ⟨rest, hr⟩ := startAutoplay_pending_extends cfg (stopAutoplay s)
    rw [hr]
    exact List.mem_append_left _ (stopAutoplay_pending_mem s u hu hid)
  · exact hu

/-- Accepted-transition effects with a transition duration: lock set,
handle stores the fresh clear-timer id. -/
theorem acceptedEffects_transition (cfg : Config) (s : SlideshowState)
    (hd : cfg.transitionDuration ≠ 0) :
    (acceptedEffects cfg s).isTransitioning = true ∧
    (acceptedEffects cfg s).transitionTimeout = some s.nextId := by
  unfold acceptedEffects
  rw [transitionPart_of_ne cfg _ hd]
  constructor <;> simp

/-- The freshly scheduled clear timer is pending after the whole setter
body, provided the stored autoplay handle (if any) is not the fresh id. -/
theorem acceptedEffects_clear_mem (cfg : Config) (s : SlideshowState)
    (hd : cfg.transitionDuration ≠ 0)
    (hfresh : ∀ i, s.autoplayTimeout = some i → i ≠ s.nextId) :
    Timer.mk s.nextId (s.now + cfg.transitionDuration) TimerKind.transitionClear ∈
      (acceptedEffects cfg s).pending := by
  unfold acceptedEffects
  rw [transitionPart_of_ne cfg _ hd]
  apply autoplayPart_pending_mem
  · simp
  · intro i hi
    simp only [setActiveElement_autoplayTimeout] at hi
    intro hcontra
    exact hfresh i hi (by simpa using hcontra.symm)

/-- A pre-existing timer also survives the whole setter body whenever its
id differs from the stored autoplay handle. -/
theorem acceptedEffects_old_mem (cfg : Config) (s : SlideshowState) (t : Timer)
    (ht : t ∈ s.pending)
    (hid : ∀ i, s.autoplayTimeout = some i → t.id ≠ i) :
    t ∈ (acceptedEffects cfg s).pending := by
  unfold acceptedEffects
  apply autoplayPart_pending_mem
  · obtain ⟨rest, hr⟩ := transitionPart_pending_extends cfg (setActiveElement s._index s)
    rw [hr]
    exact List.mem_append_left _ (by simpa using ht)
  · intro i hi
    simp only [transitionPart_autoplayTimeout, setActiveElement_autoplayTimeout] at hi
    exact hid i hi

/-- C4 amended: an accepted in-range index change with a transition
duration stores a fresh clear-timer handle (overwriting the old one) and
sets the lock, but does NOT cancel a previously pending clear timer: the
old timer stays pending next to the new one, and any clear timer that
fires resets the lock unconditionally — so an earlier transition's timer
can clear the lock set by a later transition before that transition's
duration has elapsed (witnessed concretely by `C4_counterexample`). -/
theorem C4_transition_timer_stacks (cfg : Config) (s : SlideshowState) (R : Int)
    (t : Timer)
    (hd : cfg.transitionDuration ≠ 0)
    (hR0 : 0 ≤ R) (hR1 : R ≤ (s.elements.length : Int) - 1)
    (ht : t ∈ s.pending)
    (hid : ∀ i : Nat, s.autoplayTimeout = some i → t.id ≠ i ∧ i ≠ s.nextId) :
    t ∈ (setIndex cfg R s).pending ∧
    Timer.mk s.nextId (s.now + cfg.transitionDuration) TimerKind.transitionClear ∈
      (setIndex cfg R s).pending ∧
    (setIndex cfg R s).transitionTimeout = some s.nextId ∧
    (setIndex cfg R s).isTransitioning = true ∧
    (∀ (u : Timer) (s2 : SlideshowState), u.kind = TimerKind.transitionClear →
      (fireTimer cfg u s2).isTransitioning = false) := by
  rw [setIndex_in_range cfg s R hR0 hR1]
  refine ⟨?_, ?_, ?_, ?_, ?_⟩
  · exact acceptedEffects_old_mem cfg { s with _index := R } t ht
      (fun i hi => (hid i hi).1)
  · exact acceptedEffects_clear_mem cfg { s with _index := R } hd
      (fun i hi => (hid i hi).2)
  · exact (acceptedEffects_transition cfg { s with _index := R } hd).2
  · exact (acceptedEffects_transition cfg { s with _index := R } hd).1
  · intro u s2 hk
    cases u with
    | mk uid ufa ukind =>
        cases hk
        rfl

/-- C4 amended witness: the stacked scenario state, where the pending
clear timer from the first transition survives the second one. -/
theorem C4_transition_timer_stacks_witness :
    lockCfg.transitionDuration ≠ 0 ∧
    Timer.mk 1 100 TimerKind.transitionClear ∈ stackedState.pending ∧
    Timer.mk 1 100 TimerKind.transitionClear ∈
      (setIndex lockCfg 0 stackedState).pending := by
  have hmem : Timer.mk 1 100 TimerKind.transitionClear ∈ stackedState.pending := by
    rw [show stackedState.pending = [Timer.mk 1 100 TimerKind.transitionClear] from
      by decide]
    exact List.mem_singleton.mpr rfl
  refine ⟨by decide, hmem, ?_⟩
  exact (C4_transition_timer_stacks lockCfg stackedState 0
    (Timer.mk 1 100 TimerKind.transitionClear) (by decide) (by decide) (by decide)
    hmem (fun i hi => by
      rw [show stackedState.autoplayTimeout = none from by decide] at hi
      cases hi)).1

/-- Every timer surviving the autoplay block differs from the autoplay
handle that was stored before it ran (the stored timer was canceled and
the replacement gets a fresh id). -/
theorem autoplayPart_cancel (cfg : Config) (s : SlideshowState) (h0 : Nat)
    (hsa : s.autoplayTimeout = some h0) (hlt : h0 < s.nextId)
    (hint : s.isInteracting = false) (u : Timer)
    (hu : u ∈ (autoplayPart cfg s).pending) : u.id ≠ h0 := by
  unfold autoplayPart at hu
  rw [hint] at hu
  simp only [Bool.not_false, if_true] at hu
  rcases startAutoplay_pending_ids cfg (stopAutoplay s) u hu with h | h
  · have h2 : u ∈ (clearPending s.autoplayTimeout s).pending := h
    rw [hsa] at h2
    simp only [clearPending] at h2
    have h3 := (List.mem_filter.mp h2).2
    simpa using h3
  · rw [stopAutoplay_nextId] at h
    omega

/-- With autoplay enabled and no interaction, the autoplay block stores a
fresh handle and schedules the advance timer at the effective delay. -/
theorem autoplayPart_reschedules (cfg : Config) (s : SlideshowState) (a : AutoplayCfg)
    (hca : cfg.autoplay = some a) (he : a.enabled = true)
    (hint : s.isInteracting = false) :
    (autoplayPart cfg s).autoplayTimeout = some s.nextId ∧
    Timer.mk s.nextId (s.now + effectiveAutoplayDelay a) TimerKind.autoplayAdvance ∈
      (autoplayPart cfg s).pending := by
  unfold autoplayPart
  rw [hint]
  simp only [Bool.not_false, if_true]
  rw [startAutoplay_schedules cfg (stopAutoplay s) a hca he
    (stopAutoplay_autoplayTimeout s)]
  constructor
  · simp
  · simp

/-- The autoplay restart of an accepted transition: the old advance timer
is canceled and a fresh one is scheduled a full delay after the current
time. -/
theorem acceptedEffects_autoplay_restart (cfg : Config) (s : SlideshowState)
    (a : AutoplayCfg) (h0 : Nat)
    (hca : cfg.autoplay = some a) (he : a.enabled = true)
    (hint : s.isInteracting = false)
    (hsa : s.autoplayTimeout = some h0) (hlt : h0 < s.nextId) :
    (∀ u : Timer, u ∈ (acceptedEffects cfg s).pending → u.id ≠ h0) ∧
    (∃ j : Nat, (acceptedEffects cfg s).autoplayTimeout = some j ∧
      Timer.mk j (s.now + effectiveAutoplayDelay a) TimerKind.autoplayAdvance ∈
        (acceptedEffects cfg s).pending) := by
  unfold acceptedEffects
  generalize ht2 : transitionPart cfg (setActiveElement s._index s) = t2
  have h1 : t2.autoplayTimeout = some h0 := by rw [← ht2]; simp [hsa]
  have h2 : t2.isInteracting = false := by rw [← ht2]; simp [hint]
  have h3 : h0 < t2.nextId := by
    rw [← ht2]
    have h4 := transitionPart_nextId_le cfg (setActiveElement s._index s)
    have h5 : (setActiveElement s._index s).nextId = s.nextId :=
      setActiveElement_nextId _ _
    omega
  have h6 : t2.now = s.now := by rw [← ht2]; simp
  constructor
  · intro u hu
    exact autoplayPart_cancel cfg t2 h0 h1 h3 h2 u hu
  · obtain ⟨hj1, hj2⟩ := autoplayPart_reschedules cfg t2 a hca he h2
    rw [h6] at hj2
    exact ⟨t2.nextId, hj1, hj2⟩

/-- C10: requesting the index value that is already current (in range) is
an accepted transition, not a no-op: the index is re-stored, the active
flags are recomputed for it, a transition duration sets the lock and
schedules a fresh clear timer, and — when not interacting, with autoplay
enabled and an advance timer pending — the old advance timer is canceled
and a fresh one scheduled a full delay later. -/
theorem C10_same_index_retrigger (cfg : Config) (s : SlideshowState) (a : AutoplayCfg)
    (h0 : Nat)
    (hN : 1 ≤ s.elements.length)
    (hi0 : 0 ≤ s._index) (hi1 : s._index ≤ (s.elements.length : Int) - 1) :
    (setIndex cfg s._index s)._index = s._index ∧
    (setIndex cfg s._index s).elements = activeFlags s.elements.length s._index ∧
    (cfg.transitionDuration ≠ 0 →
      (setIndex cfg s._index s).isTransitioning = true ∧
      (setIndex cfg s._index s).transitionTimeout = some s.nextId ∧
      ((∀ i : Nat, s.autoplayTimeout = some i → i ≠ s.nextId) →
        Timer.mk s.nextId (s.now + cfg.transitionDuration) TimerKind.transitionClear ∈
          (setIndex cfg s._index s).pending)) ∧
    (s.isInteracting = false → cfg.autoplay = some a → a.enabled = true →
      s.autoplayTimeout = some h0 → h0 < s.nextId →
      (∀ u : Timer, u ∈ (setIndex cfg s._index s).pending → u.id ≠ h0) ∧
      (∃ j : Nat, (setIndex cfg s._index s).autoplayTimeout = some j ∧
        Timer.mk j (s.now + effectiveAutoplayDelay a) TimerKind.autoplayAdvance ∈
          (setIndex cfg s._index s).pending)) := by
  have hform : setIndex cfg s._index s = acceptedEffects cfg s := by
    rw [setIndex_in_range cfg s s._index hi0 hi1]
  rw [hform]
  refine ⟨by simp, by simp, ?_, ?_⟩
  · intro hd
    exact ⟨(acceptedEffects_transition cfg s hd).1,
      (acceptedEffects_transition cfg s hd).2,
      fun hfresh => acceptedEffects_clear_mem cfg s hd hfresh⟩
  · intro hint hca he hsa hlt
    exact acceptedEffects_autoplay_restart cfg s a h0 hca he hint hsa hlt

/-- A config with autoplay enabled (1000ms delay), loop, 100ms lock. -/
def autoplayCfgOn : Config :=
  { loop := true, transitionDuration := 100,
    autoplay := some { enabled := true, delay := some 1000 }, controls := none }

/-- A 3-slide state with an advance timer (id 1) pending. -/
def autoState : SlideshowState :=
  { demoState 3 with
      autoplayTimeout := some 1,
      pending := [Timer.mk 1 5000 TimerKind.autoplayAdvance],
      nextId := 2 }

/-- C10 witness: re-requesting the current index 0 on `autoState` cancels
the pending advance timer with handle 1. -/
theorem C10_same_index_retrigger_witness :
    autoState.isInteracting = false ∧
    (∀ u : Timer, u ∈ (setIndex autoplayCfgOn autoState._index autoState).pending →
      u.id ≠ 1) :=
  ⟨rfl,
    ((C10_same_index_retrigger autoplayCfgOn autoState ⟨true, some 1000⟩ 1
      (by decide) (by decide) (by decide)).2.2.2 rfl rfl rfl rfl (by decide)).1⟩

@[simp] theorem clearPending_styleNode (h : Option Nat) (s : SlideshowState) :
    (clearPending h s).styleNode = s.styleNode := by
  cases h <;> rfl

@[simp] theorem stopAutoplay_styleNode (s : SlideshowState) :
    (stopAutoplay s).styleNode = s.styleNode := by
  simp [stopAutoplay]

/-- `destroy` on a state whose style node is attached succeeds and leaves
the node detached. -/
theorem destroy_attached_eq (s : SlideshowState)
    (h : s.styleNode = StyleNodeState.attached) :
    destroy s = Except.ok
      { clearPending (stopAutoplay s).transitionTimeout (stopAutoplay s) with
        eventHandlers := 0, styleNode := StyleNodeState.detached } := by
  simp only [destroy]
  split
  · rename_i heq
    simp [h] at heq
  · rename_i heq
    simp [h] at heq
  · rfl

/-- `destroy` before `setStyles` ever ran throws. -/
theorem destroy_absent_eq (s : SlideshowState)
    (h : s.styleNode = StyleNodeState.absent) :
    destroy s = Except.error "TypeError: cannot read parentNode of undefined" := by
  simp only [destroy]
  split
  · rfl
  · rename_i heq
    simp [h] at heq
  · rename_i heq
    simp [h] at heq

/-- `destroy` after the style node was already removed throws. -/
theorem destroy_detached_eq (s : SlideshowState)
    (h : s.styleNode = StyleNodeState.detached) :
    destroy s = Except.error "TypeError: cannot call removeChild on null" := by
  simp only [destroy]
  split
  · rename_i heq
    simp [h] at heq
  · rfl
  · rename_i heq
    simp [h] at heq

/-- A successful `destroy` always leaves the style node detached. -/
theorem destroy_ok_styleNode (s s2 : SlideshowState)
    (h : destroy s = Except.ok s2) : s2.styleNode = StyleNodeState.detached := by
  simp only [destroy] at h
  split at h
  · cases h
  · cases h
  · cases h
    simp

/-- C5 counterexample: calling `destroy()` on a constructed but never
laid-out instance throws (the style-node removal dereferences
`this.styleNode.parentNode` with `styleNode` undefined), so `destroy` is
not safe when `layout()` never ran. -/
theorem C5_counterexample :
    destroy freshState =
      Except.error "TypeError: cannot read parentNode of undefined" := rfl

/-- C5 amended: `destroy()` after a successful layout (style node
attached) completes without error and detaches the style node; but
calling it when `layout()` never ran (style node absent), or a second
time after a successful `destroy()` (style node already detached), throws
a `TypeError` at the style-node removal: `destroy` is not idempotent-safe. -/
theorem C5_amended_destroy (s s2 : SlideshowState) :
    (s.styleNode = StyleNodeState.attached →
      ∃ s1, destroy s = Except.ok s1 ∧ s1.styleNode = StyleNodeState.detached) ∧
    (s.styleNode = StyleNodeState.absent →
      ∃ msg, destroy s = Except.error msg) ∧
    (destroy s = Except.ok s2 → ∃ msg, destroy s2 = Except.error msg) := by
  refine ⟨?_, ?_, ?_⟩
  · intro h
    exact ⟨_, destroy_attached_eq s h, by simp⟩
  · intro h
    exact ⟨_, destroy_absent_eq s h⟩
  · intro h
    exact ⟨_, destroy_detached_eq s2 (destroy_ok_styleNode s s2 h)⟩

/-- C5 amended witness: a laid-out 1-slide state destroys successfully,
ending with the style node detached. -/
theorem C5_amended_destroy_witness :
    (demoState 1).styleNode = StyleNodeState.attached ∧
    (∃ s1, destroy (demoState 1) = Except.ok s1 ∧
      s1.styleNode = StyleNodeState.detached) :=
  ⟨rfl, (C5_amended_destroy (demoState 1) (demoState 1)).1 rfl⟩
